import Mathlib

/-!
Shallow embedding of `src/reminder_mcp.py` (penguinco/reminder-mcp).

The program is a bridge between an MCP (RPC) server and the macOS
automation host `osascript`: each tool handler renders an AppleScript
string (Python f-string templates), spawns one `osascript` subprocess per
`run_applescript` call, and parses the captured stdout.

Modelling conventions:
- The external host is a function `Host : String → ProcResult` mapping the
  script text handed to `osascript -e` to the process outcome (exit code,
  stdout, stderr).  `subprocess.run(..., check=True)` raising
  `CalledProcessError` on a non-zero exit is modelled by `run_applescript`
  returning `none` in that case.
- Each operation returns a pair: its Python return value, and the list of
  script texts dispatched to the host during the call, in order.  The
  length of that list is the number of subprocesses spawned by the call.
- Python `str.strip()` is `pyStrip` below, `str.split(sep)` is `pySplit`,
  `str.split(sep, 2)` is `pySplitMax2`, and `x in s` (substring test) is
  `containsSub`.
-/

namespace ReminderMcp

/-- Outcome of one spawned `osascript` process. -/
structure ProcResult where
  exitCode : Nat
  stdout : String
  stderr : String
deriving Repr, DecidableEq

/-- The external automation host: script text ↦ process outcome. -/
def Host := String → ProcResult

/-! ## Python string primitives

Core `String.splitOn`/`String.trim` are compiled with well-founded
recursion and do not reduce inside the kernel, so the Python string
primitives the program uses are modelled structurally over `List Char`. -/

/-- The whitespace set of Python `str.strip()`. -/
def isPySpace (c : Char) : Bool :=
  c == ' ' || c == '\t' || c == '\n' || c == '\r' || c == '\x0b' || c == '\x0c'

/-- Python `s.strip()`. -/
def pyStrip (s : String) : String :=
  ⟨((s.data.dropWhile isPySpace).reverse.dropWhile isPySpace).reverse⟩

/-- Left-to-right scan of Python `str.split(sep)` for a non-empty `sep`:
whenever the remaining input starts with `sep`, the accumulated chunk is
emitted and the separator consumed.  The fuel is the input length. -/
def splitOnListAux (sep : List Char) : Nat → List Char → List Char → List (List Char)
  | _, [], acc => [acc.reverse]
  | 0, cs, acc => [acc.reverse ++ cs]
  | fuel + 1, c :: cs, acc =>
      if sep.isPrefixOf (c :: cs) then
        acc.reverse :: splitOnListAux sep fuel (List.drop (sep.length - 1) cs) []
      else splitOnListAux sep fuel cs (c :: acc)

/-- Python `s.split(sep)` for the non-empty separators the program uses. -/
def pySplit (s sep : String) : List String :=
  if sep.data.isEmpty then [s]
  else (splitOnListAux sep.data s.data.length s.data []).map String.mk

/-- Decimal value of an all-digit string. -/
def pyToNat (s : String) : Nat :=
  s.data.foldl (fun n c => n * 10 + (c.toNat - '0'.toNat)) 0

/-- Python `s[n:]`. -/
def pyDrop (s : String) (n : Nat) : String :=
  ⟨s.data.drop n⟩

/-- Python `s[:-n]`. -/
def pyDropRight (s : String) (n : Nat) : String :=
  ⟨(s.data.reverse.drop n).reverse⟩

/-- `run_applescript` (src lines 24–40): runs the script; on exit 0 returns
the stripped stdout, on a non-zero exit (`CalledProcessError`) returns
`None` (the diagnostic is printed to the server's stderr, see
`run_applescript_err_log`). -/
def run_applescript (host : Host) (script : String) : Option String :=
  let result := host script
  if result.exitCode == 0 then some (pyStrip result.stdout) else none

/-- The lines printed to the server's own stderr by `run_applescript`
(src line 39): on failure, the message embedding the captured stderr. -/
def run_applescript_err_log (host : Host) (script : String) : List String :=
  let result := host script
  if result.exitCode == 0 then [] else
    [s!"Error executing AppleScript: {result.stderr}"]

/-- Python `s.split(sep, 2)` for a one-character separator `sep`:
at most three parts, the last keeping any further separators. -/
def pySplitMax2 (s : String) (sep : String) : List String :=
  match pySplit s sep with
  | p0 :: p1 :: p2 :: rest => [p0, p1, String.intercalate sep (p2 :: rest)]
  | l => l

/-- Python `pat in s`: substring containment. -/
def containsSub (s pat : String) : Bool :=
  (List.range (s.data.length + 1)).any fun i => pat.data.isPrefixOf (s.data.drop i)

/-! ## Reminder operations (src lines 43-183) -/

/-- Script of `list_reminders` (src lines 50–58). -/
def list_reminders_script : String :=
  "\n    tell application \"Reminders\"\n        set remindersList to \x7b\x7d\n        repeat with r in (reminders whose completed is false)\n            set end of remindersList to name of r\n        end repeat\n        return remindersList\n    end tell\n    "

/-- `list_reminders` (src lines 43–62): splits a non-empty output on
`", "`, returns `[]` for `None` or empty output. -/
def list_reminders (host : Host) : List String × List String :=
  let script := list_reminders_script
  match run_applescript host script with
  | some result => (if result != "" then pySplit result ", " else [], [script])
  | none => ([], [script])

/-- Script template of `get` (src lines 74–84): the `name` argument is
interpolated verbatim into the double-quoted AppleScript literal. -/
def get_script (name : String) : String :=
  s!"\n    tell application \"Reminders\"\n        set matchingReminders to (reminders whose name is \"{name}\")\n        if (count of matchingReminders) > 0 then\n            set r to item 1 of matchingReminders\n            return name of r & \",\" & (body of r as string) & \",\" & (completed of r as string)\n        else\n            return \"not found\"\n        end if\n    end tell\n    "

/-- The record built by `get` (src line 88). -/
structure ReminderRecord where
  name : String
  body : String
  completed : Bool
deriving Repr, DecidableEq

/-- The record-parsing step of `get` (src lines 87–88):
`parts = result.split(",", 2)`, missing fields default to `""` / `False`. -/
def parse_reminder (result : String) : ReminderRecord :=
  let parts := pySplitMax2 result ","
  { name := parts.getD 0 "",
    body := if parts.length > 1 then parts.getD 1 "" else "",
    completed := if parts.length > 2 then parts.getD 2 "" == "true" else false }

/-- `get` (src lines 64–89): parses the record when the output is truthy
and not the `"not found"` sentinel, otherwise returns `None`. -/
def get (host : Host) (name : String) : Option ReminderRecord × List String :=
  let script := get_script name
  match run_applescript host script with
  | some result =>
      (if result != "" && result != "not found" then some (parse_reminder result)
       else none, [script])
  | none => (none, [script])

/-- Script template of `done` (src lines 101–112). -/
def done_script (name : String) : String :=
  s!"\n    tell application \"Reminders\"\n        set matchingReminders to (reminders whose name is \"{name}\")\n        if (count of matchingReminders) > 0 then\n            set r to item 1 of matchingReminders\n            set completed of r to true\n            return \"completed\"\n        else\n            return \"not found\"\n        end if\n    end tell\n    "

/-- `done` (src lines 91–113): `run_applescript(script) == "completed"`. -/
def done (host : Host) (name : String) : Bool × List String :=
  let script := done_script name
  (run_applescript host script == some "completed", [script])

/-- Script template of `delete` (src lines 125–135). -/
def delete_script (name : String) : String :=
  s!"\n    tell application \"Reminders\"\n        set matchingReminders to (reminders whose name is \"{name}\")\n        if (count of matchingReminders) > 0 then\n            delete item 1 of matchingReminders\n            return \"deleted\"\n        else\n            return \"not found\"\n        end if\n    end tell\n    "

/-- `delete` (src lines 115–136): `run_applescript(script) == "deleted"`. -/
def delete (host : Host) (name : String) : Bool × List String :=
  let script := delete_script name
  (run_applescript host script == some "deleted", [script])

/-- Script template of `update` (src lines 149–160). -/
def update_script (old_name new_name : String) : String :=
  s!"\n    tell application \"Reminders\"\n        set matchingReminders to (reminders whose name is \"{old_name}\")\n        if (count of matchingReminders) > 0 then\n            set r to item 1 of matchingReminders\n            set name of r to \"{new_name}\"\n            return \"updated\"\n        else\n            return \"not found\"\n        end if\n    end tell\n    "

/-- `update` (src lines 138–161): `run_applescript(script) == "updated"`. -/
def update (host : Host) (old_name new_name : String) : Bool × List String :=
  let script := update_script old_name new_name
  (run_applescript host script == some "updated", [script])

/-- Script template of `add` (src lines 174–182); `\x7b`/`\x7d` are the
literal braces of the AppleScript record. -/
def add_script (name body : String) : String :=
  s!"\n    tell application \"Reminders\"\n        set defaultList to first list\n        tell defaultList\n            make new reminder with properties \x7bname:\"{name}\", body:\"{body}\"\x7d\n            return \"added\"\n        end tell\n    end tell\n    "

/-- `add` (src lines 163–183): `run_applescript(script) == "added"`. -/
def add (host : Host) (name body : String) : Bool × List String :=
  let script := add_script name body
  (run_applescript host script == some "added", [script])

/-! ## MCP tool wrappers for reminders (src lines 426–454): the RPC
response values. -/

/-- Response shape of `get_reminder`: `{"result": get(name)}`. -/
structure GetReminderResponse where
  result : Option ReminderRecord
deriving Repr, DecidableEq

/-- Response shape of the boolean tools: `{"result": <bool>}`. -/
structure BoolResponse where
  result : Bool
deriving Repr, DecidableEq

/-- Response shape of `list_reminders`: `{"reminders": [...]}`. -/
structure ListRemindersResponse where
  reminders : List String
deriving Repr, DecidableEq

/-- `get_reminder` tool (src lines 431–434). -/
def get_reminder (host : Host) (name : String) : GetReminderResponse :=
  ⟨(get host name).fst⟩

/-- `complete_reminder` tool (src lines 436–439). -/
def complete_reminder (host : Host) (name : String) : BoolResponse :=
  ⟨(done host name).fst⟩

/-- `delete_reminder` tool (src lines 441–444). -/
def delete_reminder (host : Host) (name : String) : BoolResponse :=
  ⟨(delete host name).fst⟩

/-- `update_reminder` tool (src lines 446–449). -/
def update_reminder (host : Host) (old_name new_name : String) : BoolResponse :=
  ⟨(update host old_name new_name).fst⟩

/-- `add_reminder` tool (src lines 451–454). -/
def add_reminder (host : Host) (name body : String) : BoolResponse :=
  ⟨(add host name body).fst⟩

/-- `list_reminders` tool (src lines 426–429). -/
def list_reminders_mcp (host : Host) : ListRemindersResponse :=
  ⟨(list_reminders host).fst⟩

/-! ## Date parsing (Python stdlib `datetime.datetime.fromisoformat`) -/

/-- The fields of a Python `datetime` object the program reads
(`year`/`month`/`day`/`hour`/`minute`/`second`). -/
structure PyDateTime where
  year : Nat
  month : Nat
  day : Nat
  hour : Nat
  minute : Nat
  second : Nat
deriving Repr, DecidableEq

def isLeapYear (y : Nat) : Bool :=
  (y % 4 == 0 && y % 100 != 0) || y % 400 == 0

def daysInMonth (y m : Nat) : Nat :=
  if m == 2 then (if isLeapYear y then 29 else 28)
  else if m == 4 || m == 6 || m == 9 || m == 11 then 30
  else 31

/-- A fixed-width run of ASCII digits, as `fromisoformat` requires for
each date/time component. -/
def parseNatFixed (s : String) (len : Nat) : Option Nat :=
  if s.data.length == len && s.data.all Char.isDigit && len > 0 then some (pyToNat s) else none

def parseIsoDate (s : String) : Option (Nat × Nat × Nat) :=
  match pySplit s "-" with
  | [ys, ms, ds] => do
      let y ← parseNatFixed ys 4
      let m ← parseNatFixed ms 2
      let d ← parseNatFixed ds 2
      if 1 ≤ m && m ≤ 12 && 1 ≤ d && d ≤ daysInMonth y m then some (y, m, d) else none
  | _ => none

def parseIsoTime (s : String) : Option (Nat × Nat × Nat) :=
  match pySplit s ":" with
  | [hs] => do
      let h ← parseNatFixed hs 2
      if h ≤ 23 then some (h, 0, 0) else none
  | [hs, ms] => do
      let h ← parseNatFixed hs 2
      let mi ← parseNatFixed ms 2
      if h ≤ 23 && mi ≤ 59 then some (h, mi, 0) else none
  | [hs, ms, ss] => do
      let h ← parseNatFixed hs 2
      let mi ← parseNatFixed ms 2
      let sec ← parseNatFixed ss 2
      if h ≤ 23 && mi ≤ 59 && sec ≤ 59 then some (h, mi, sec) else none
  | _ => none

/-- Model of the Python stdlib `datetime.datetime.fromisoformat`, restricted
to the `YYYY-MM-DD[THH[:MM[:SS]]]` forms that the program documents for its
date arguments (src docstrings, lines 223–224 / 299–300); `none` models the
`ValueError` raised on malformed input. -/
def fromisoformat (s : String) : Option PyDateTime :=
  match pySplit s "T" with
  | [ds] => do
      let (y, m, d) ← parseIsoDate ds
      some ⟨y, m, d, 0, 0, 0⟩
  | [ds, ts] => do
      let (y, m, d) ← parseIsoDate ds
      let (h, mi, sec) ← parseIsoTime ts
      some ⟨y, m, d, h, mi, sec⟩
  | _ => none

/-! ## Calendar operations (src lines 186–399) -/

/-- Model of `json.loads` restricted to the flat JSON array of strings that
the `get_calendars` script emits, e.g. `["Work", "Home"]`; faithful for
calendar names containing neither `"` nor the two-character sequence
`", "`. `none` models `json.JSONDecodeError`. -/
def json_loads_string_list (s : String) : Option (List String) :=
  let t := pyStrip s
  if t == "[]" then some [] else
  if ['['].isPrefixOf t.data && [']'].isSuffixOf t.data && t.data.length ≥ 2 then
    let items := pySplit (pyDropRight (pyDrop t 1) 1) ", "
    items.foldr (fun item acc => do
      let l ← acc
      if ['"'].isPrefixOf item.data && ['"'].isSuffixOf item.data && item.data.length ≥ 2 &&
          !(pyDropRight (pyDrop item 1) 1).data.contains '"' then
        some ((pyDropRight (pyDrop item 1) 1) :: l)
      else none) (some [])
  else none

/-- Script of `get_calendars` (src lines 193–207); inside it, `\"` is the
AppleScript escape producing a quote character of the JSON output. -/
def get_calendars_script : String :=
  "\n    tell application \"Calendar\"\n        set calendarList to name of every calendar\n        set jsonList to \"[\"\n        repeat with i from 1 to count of calendarList\n            set calName to item i of calendarList\n            set jsonList to jsonList & \"\\\"\" & calName & \"\\\"\"\n            if i < count of calendarList then\n                set jsonList to jsonList & \", \"\n            end if\n        end repeat\n        set jsonList to jsonList & \"]\"\n        return jsonList\n    end tell\n    "

/-- `get_calendars` (src lines 186–215): JSON-decodes a truthy output,
returns `[]` on `None`, empty output or a decode error. -/
def get_calendars (host : Host) : List String × List String :=
  let script := get_calendars_script
  match run_applescript host script with
  | some result =>
      (if result != "" then
        match json_loads_string_list result with
        | some l => l
        | none => []
       else [], [script])
  | none => ([], [script])

/-- Script template of `create_calendar_event` (src lines 263–289);
`\x7b`/`\x7d` are the literal braces of the AppleScript record. -/
def create_calendar_event_script (calendar_name : String)
    (start_year start_month start_day start_hour start_minute : Nat)
    (end_year end_month end_day end_hour end_minute : Nat)
    (title location notes : String) : String :=
  s!"\n    tell application \"Calendar\"\n        tell calendar \"{calendar_name}\"\n            -- 開始日時の設定\n            set startDate to current date\n            set year of startDate to {start_year}\n            set month of startDate to {start_month}\n            set day of startDate to {start_day}\n            set hours of startDate to {start_hour}\n            set minutes of startDate to {start_minute}\n            set seconds of startDate to 0\n            \n            -- 終了日時の設定\n            set endDate to current date\n            set year of endDate to {end_year}\n            set month of endDate to {end_month}\n            set day of endDate to {end_day}\n            set hours of endDate to {end_hour}\n            set minutes of endDate to {end_minute}\n            set seconds of endDate to 0\n            \n            -- イベントの作成\n            make new event with properties \x7bsummary:\"{title}\", start date:startDate, end date:endDate, location:\"{location}\", description:\"{notes}\"\x7d\n            return \"Event created successfully in {calendar_name} from \" & (startDate as string) & \" to \" & (endDate as string)\n        end tell\n    end tell\n    "

/-- The date-validation, rendering and dispatch part of
`create_calendar_event` (src lines 239–292), reached once a calendar name
is fixed: a `ValueError` from `fromisoformat` returns `False` with no
dispatch; otherwise the script runs and the result is
`result is not None and "successfully" in result`. -/
def create_calendar_event_go (host : Host)
    (title start_date end_date calendar_name location notes : String) :
    Bool × List String :=
  match fromisoformat start_date, fromisoformat end_date with
  | some s, some e =>
      let script := create_calendar_event_script calendar_name
        s.year s.month s.day s.hour s.minute
        e.year e.month e.day e.hour e.minute title location notes
      (match run_applescript host script with
       | some r => containsSub r "successfully"
       | none => false, [script])
  | _, _ => (false, [])

/-- `create_calendar_event` (src lines 217–292): with `calendar_name =
None` it first dispatches the `get_calendars` script and takes the first
calendar (returning `False` when there is none), then validates the dates
and dispatches the event script. -/
def create_calendar_event (host : Host) (title start_date end_date : String)
    (calendar_name : Option String) (location notes : String) :
    Bool × List String :=
  match calendar_name with
  | none =>
      let (calendars, t1) := get_calendars host
      match calendars with
      | [] => (false, t1)
      | c :: _ =>
          let (r, t2) := create_calendar_event_go host title start_date end_date c location notes
          (r, t1 ++ t2)
  | some c => create_calendar_event_go host title start_date end_date c location notes

/-- Script template of `get_calendar_events` (src lines 333–376): only the
year/month/day components are interpolated; the hours/minutes/seconds of
the window are the fixed literals 0:0:0 and 23:59:59.  Inside the script,
`\n` (backslash, n) is the AppleScript escape appended between records. -/
def get_calendar_events_script (calendar_name : String)
    (start_year start_month start_day end_year end_month end_day : Nat) : String :=
  s!"\n    tell application \"Calendar\"\n        tell calendar \"{calendar_name}\"\n            -- 開始日時の設定\n            set startDate to current date\n            set year of startDate to {start_year}\n            set month of startDate to {start_month}\n            set day of startDate to {start_day}\n            set hours of startDate to 0\n            set minutes of startDate to 0\n            set seconds of startDate to 0\n            \n            -- 終了日時の設定\n            set endDate to current date\n            set year of endDate to {end_year}\n            set month of endDate to {end_month}\n            set day of endDate to {end_day}\n            set hours of endDate to 23\n            set minutes of endDate to 59\n            set seconds of endDate to 59\n            \n            -- 日付範囲内のイベントを取得\n            set matchingEvents to (events whose start date ≥ startDate and start date ≤ endDate)\n            \n            set eventData to \"\"\n            repeat with e in matchingEvents\n                set eventTitle to summary of e\n                set eventStart to start date of e as string\n                set eventEnd to end date of e as string\n                set eventLoc to \"\"\n                try\n                    set eventLoc to location of e\n                    if eventLoc is missing value then\n                        set eventLoc to \"\"\n                    end if\n                end try\n                \n                -- 区切り文字として使用しない特殊な文字を使用\n                set eventData to eventData & eventTitle & \"§§§\" & eventStart & \"§§§\" & eventEnd & \"§§§\" & eventLoc & \"\\n\"\n            end repeat\n            return eventData\n        end tell\n    end tell\n    "

/-- The event dictionaries built by `get_calendar_events`
(src lines 389–394); the Python dict key of `end_` is `"end"`. -/
structure CalendarEvent where
  title : String
  start : String
  end_ : String
  location : String
deriving Repr, DecidableEq

/-- Output parsing of `get_calendar_events` (src lines 380–396): the
stripped output is split on the two-character sequence `\n` (as the Python
source splits on the literal `"\\n"`), each non-blank line is split on
`"§§§"`, and lines with at least three parts become events. -/
def parse_calendar_events (result : String) : List CalendarEvent :=
  let lines := pySplit (pyStrip result) "\\n"
  lines.foldr (fun line acc =>
    if pyStrip line == "" then acc
    else
      let parts := pySplit line "§§§"
      if parts.length ≥ 3 then
        { title := parts.getD 0 "", start := parts.getD 1 "",
          end_ := parts.getD 2 "",
          location := if parts.length > 3 then parts.getD 3 "" else "" } :: acc
      else acc) []

/-- The date-validation, rendering, dispatch and parsing part of
`get_calendar_events` (src lines 313–399), reached once a calendar name is
fixed: a `ValueError` from `fromisoformat` returns `[]` with no dispatch. -/
def get_calendar_events_go (host : Host)
    (start_date end_date calendar_name : String) :
    List CalendarEvent × List String :=
  match fromisoformat start_date, fromisoformat end_date with
  | some s, some e =>
      let script := get_calendar_events_script calendar_name
        s.year s.month s.day e.year e.month e.day
      (match run_applescript host script with
       | some result =>
           if result != "" && pyStrip result != "" then parse_calendar_events result else []
       | none => [], [script])
  | _, _ => ([], [])

/-- `get_calendar_events` (src lines 294–399): with `calendar_name = None`
it first dispatches the `get_calendars` script and takes the first
calendar (returning `[]` when there is none). -/
def get_calendar_events (host : Host) (start_date end_date : String)
    (calendar_name : Option String) : List CalendarEvent × List String :=
  match calendar_name with
  | none =>
      let (calendars, t1) := get_calendars host
      match calendars with
      | [] => ([], t1)
      | c :: _ =>
          let (r, t2) := get_calendar_events_go host start_date end_date c
          (r, t1 ++ t2)
  | some c => get_calendar_events_go host start_date end_date c

/-- Response shape of the `create_calendar_event` tool (src lines 462–466). -/
structure StringResponse where
  result : String
deriving Repr, DecidableEq

/-- `create_calendar_event` tool (src lines 462–466). -/
def create_calendar_event_mcp (host : Host) (title start_date end_date : String)
    (calendar_name : Option String) (location notes : String) : StringResponse :=
  if (create_calendar_event host title start_date end_date calendar_name location notes).fst
  then ⟨"Event created successfully"⟩ else ⟨"Failed to create event"⟩

/-- Response shape of the `get_calendar_events` tool (src lines 468–472). -/
structure EventsResponse where
  events : List CalendarEvent
deriving Repr, DecidableEq

/-- `get_calendar_events` tool (src lines 468–472). -/
def get_calendar_events_mcp (host : Host) (start_date end_date : String)
    (calendar_name : Option String) : EventsResponse :=
  ⟨(get_calendar_events host start_date end_date calendar_name).fst⟩

/-! ## Quoting structure of rendered scripts

The spec's escaping property is checked, as it prescribes, "by
constructing the rendered script and checking structural balance": in
AppleScript a string literal is delimited by `"` and a quote is escaped as
`\"`, so a script whose number of unescaped quote characters is odd has a
string literal terminated early (some literal's closing quote is not where
the template put it). -/

/-- Counts the `"` characters of a character list that are not consumed by
a preceding backslash escape. -/
def unescapedQuoteCountAux : List Char → Nat
  | [] => 0
  | '\\' :: _ :: rest => unescapedQuoteCountAux rest
  | '"' :: rest => unescapedQuoteCountAux rest + 1
  | _ :: rest => unescapedQuoteCountAux rest

def unescapedQuoteCount (s : String) : Nat :=
  unescapedQuoteCountAux s.data

/-- Structural balance of a script's quoting: every string literal opened
is closed exactly where an unescaped quote appears, which holds of the
templates iff the unescaped-quote count is even. -/
def quoteBalanced (s : String) : Bool :=
  unescapedQuoteCount s % 2 == 0

/-! ## Host semantics for the `done` script

To settle behavioural properties that depend on what the external host
does with a script (not only on its raw output), the AppleScript sent by
`done` (src lines 101–112) is given a semantics over an explicit Reminders
application state. -/

/-- One reminder of the external Reminders application. -/
structure HostReminder where
  name : String
  body : String
  completed : Bool
deriving Repr, DecidableEq

/-- Semantics of the `done` script (src lines 101–112), modelled from the
script text: `reminders whose name is <name>` selects the reminders with
that exact name; if any exists the first match has `completed` set to
`true` and the script returns `"completed"`, otherwise `"not found"`.  The
returned pair is (script stdout, Reminders state after the run). -/
def hostDoneStep (name : String) : List HostReminder → String × List HostReminder
  | [] => ("not found", [])
  | r :: rs =>
      if r.name == name then ("completed", { r with completed := true } :: rs)
      else
        let (out, rs2) := hostDoneStep name rs
        (out, r :: rs2)

/-- The bridge's `done` run against a Reminders application in state `s`:
the host executes the dispatched script per `hostDoneStep` and exits 0
with its output; the pair is (the bridge's Python return value, the
Reminders state after the call). -/
def done_on_state (s : List HostReminder) (name : String) :
    Bool × List HostReminder :=
  let (out, s2) := hostDoneStep name s
  ((done (fun _ => ⟨0, out, ""⟩) name).fst, s2)

/-! ## Host semantics for the event-selection clause of
`get_calendar_events` -/

/-- Lexicographic comparison of the date components AppleScript compares
when the script evaluates `start date ≥ startDate` / `start date ≤
endDate` on dates built from year/month/day/hours/minutes/seconds. -/
def dtLe (a b : PyDateTime) : Bool :=
  if a.year != b.year then a.year < b.year
  else if a.month != b.month then a.month < b.month
  else if a.day != b.day then a.day < b.day
  else if a.hour != b.hour then a.hour < b.hour
  else if a.minute != b.minute then a.minute < b.minute
  else a.second ≤ b.second

/-- One event of the external Calendar application. -/
structure HostCalEvent where
  summary : String
  startDate : PyDateTime
  endDate : PyDateTime
  location : String
deriving Repr, DecidableEq

/-- Semantics of the selection clause of the `get_calendar_events` script
(src lines 337–355), modelled from the script text: the script builds
`startDate` from the interpolated start year/month/day with the time fixed
to 0:0:0, `endDate` from the end year/month/day with the time fixed to
23:59:59, and keeps `events whose start date ≥ startDate and start date ≤
endDate`. -/
def hostSelectEvents (start_year start_month start_day end_year end_month end_day : Nat)
    (events : List HostCalEvent) : List HostCalEvent :=
  events.filter fun ev =>
    dtLe ⟨start_year, start_month, start_day, 0, 0, 0⟩ ev.startDate &&
    dtLe ev.startDate ⟨end_year, end_month, end_day, 23, 59, 59⟩

/-! ## Stub hosts used to instantiate the theorems -/

/-- A stub host that exits 0 with the same stdout for every script. -/
def constHost (out : String) : Host := fun _ => ⟨0, out, ""⟩

/-- A stub host that exits 1 with the given stderr for every script. -/
def failHost (err : String) : Host := fun _ => ⟨1, "", err⟩

/-- A stub host that answers the calendar-listing script with one calendar
named `Work` and every other script with stdout `ok`. -/
def calListHost : Host := fun script =>
  if script == get_calendars_script then ⟨0, "[\"Work\"]", ""⟩ else ⟨0, "ok", ""⟩

/-! ## Helper lemmas -/

theorem run_applescript_of_exit_zero (host : Host) (script : String)
    (h0 : (host script).exitCode = 0) :
    run_applescript host script = some (pyStrip (host script).stdout) := by
  simp [run_applescript, h0]

theorem run_applescript_of_exit_nonzero (host : Host) (script : String)
    (h0 : (host script).exitCode ≠ 0) :
    run_applescript host script = none := by
  simp [run_applescript, h0]

theorem run_applescript_beq_token (host : Host) (script tok : String) :
    (run_applescript host script == some tok) = true ↔
      (host script).exitCode = 0 ∧ pyStrip (host script).stdout = tok := by
  unfold run_applescript
  by_cases h : (host script).exitCode = 0 <;> simp [h]

theorem list_reminders_snd (host : Host) :
    (list_reminders host).snd = [list_reminders_script] := by
  unfold list_reminders
  cases h : run_applescript host list_reminders_script <;> simp [h]

theorem get_snd (host : Host) (name : String) :
    (get host name).snd = [get_script name] := by
  unfold get
  cases h : run_applescript host (get_script name) <;> simp [h]

theorem get_calendars_snd (host : Host) :
    (get_calendars host).snd = [get_calendars_script] := by
  unfold get_calendars
  cases h : run_applescript host get_calendars_script <;> simp [h]

theorem create_go_snd (host : Host) (title a b cal loc notes : String)
    (da db : PyDateTime) (ha : fromisoformat a = some da) (hb : fromisoformat b = some db) :
    (create_calendar_event_go host title a b cal loc notes).snd =
      [create_calendar_event_script cal da.year da.month da.day da.hour da.minute
        db.year db.month db.day db.hour db.minute title loc notes] := by
  unfold create_calendar_event_go
  rw [ha, hb]

theorem events_go_snd (host : Host) (a b cal : String)
    (da db : PyDateTime) (ha : fromisoformat a = some da) (hb : fromisoformat b = some db) :
    (get_calendar_events_go host a b cal).snd =
      [get_calendar_events_script cal da.year da.month da.day db.year db.month db.day] := by
  unfold get_calendar_events_go
  rw [ha, hb]

theorem create_go_invalid (host : Host) (title a b cal loc notes : String)
    (h : fromisoformat a = none ∨ fromisoformat b = none) :
    create_calendar_event_go host title a b cal loc notes = (false, []) := by
  unfold create_calendar_event_go
  rcases h with h | h
  · rw [h]
  · rw [h]
    cases fromisoformat a <;> rfl

theorem events_go_invalid (host : Host) (a b cal : String)
    (h : fromisoformat a = none ∨ fromisoformat b = none) :
    get_calendar_events_go host a b cal = ([], []) := by
  unfold get_calendar_events_go
  rcases h with h | h
  · rw [h]
  · rw [h]
    cases fromisoformat a <;> rfl

theorem beq_token_false_of_ne (host : Host) (script tok : String)
    (h : pyStrip (host script).stdout ≠ tok) :
    (run_applescript host script == some tok) = false := by
  cases hb : (run_applescript host script == some tok)
  · rfl
  · exact absurd ((run_applescript_beq_token host script tok).mp hb).2 h

theorem beq_token_false_of_fail (host : Host) (script tok : String)
    (h : (host script).exitCode ≠ 0) :
    (run_applescript host script == some tok) = false := by
  rw [run_applescript_of_exit_nonzero host script h]
  rfl

/-! ## Claims -/

set_option maxRecDepth 8000 in
/-- C1: the spec makes it a mandatory contract that every string argument
interpolated into a script template is escaped so that an embedded `"`
cannot terminate the surrounding string literal early.  The code
interpolates arguments verbatim: for the name `say "hi` the rendered `get`
and `add` scripts contain the quote unescaped (the name appears verbatim
inside the script) and their quoting structure is unbalanced — an odd
number of unescaped quotes, so a string literal of the template is
terminated early — whereas the same templates are balanced for quote-free
arguments.  This contradicts the claim; rendering itself is total (no
crash), as the evaluations show. -/
theorem c1_unescaped_quote_terminates_literal :
    quoteBalanced (get_script "Buy milk") = true ∧
    quoteBalanced (add_script "Buy milk" "2 percent") = true ∧
    quoteBalanced (get_script "say \"hi") = false ∧
    quoteBalanced (add_script "say \"hi" "") = false ∧
    containsSub (get_script "say \"hi") "(reminders whose name is \"say \"hi\")" = true := by
  decide

set_option maxRecDepth 8000 in
/-- C2 (counterexample): with `calendar_name = None` and a host whose
calendar list is non-empty, `create_calendar_event` and
`get_calendar_events` each spawn two subprocesses (the calendar-discovery
script and then the operation's script), not exactly one. -/
theorem c2_counterexample_two_processes :
    (create_calendar_event calListHost "Meeting" "2024-01-01T10:00:00"
        "2024-01-01T11:00:00" none "" "").snd.length = 2 ∧
    (get_calendar_events calListHost "2024-01-01" "2024-01-02" none).snd.length = 2 := by
  decide

/-- C2 (amended): every reminder operation and `get_calendars` spawn
exactly one subprocess per call, and so do `create_calendar_event` and
`get_calendar_events` when a calendar name is given and the dates are
valid; with `calendar_name = None` and a non-empty discovered calendar
list, those two operations spawn two subprocesses (calendar discovery
plus the operation's script). -/
theorem c2_one_process_per_call_amended (host : Host)
    (name old_name new_name body title a b cal loc notes : String)
    (da db : PyDateTime)
    (ha : fromisoformat a = some da) (hb : fromisoformat b = some db) :
    (list_reminders host).snd.length = 1 ∧
    (get host name).snd.length = 1 ∧
    (done host name).snd.length = 1 ∧
    (delete host name).snd.length = 1 ∧
    (update host old_name new_name).snd.length = 1 ∧
    (add host name body).snd.length = 1 ∧
    (get_calendars host).snd.length = 1 ∧
    (create_calendar_event host title a b (some cal) loc notes).snd.length = 1 ∧
    (get_calendar_events host a b (some cal)).snd.length = 1 ∧
    ((get_calendars host).fst ≠ [] →
      (create_calendar_event host title a b none loc notes).snd.length = 2 ∧
      (get_calendar_events host a b none).snd.length = 2) := by
  refine ⟨by rw [list_reminders_snd]; rfl, by rw [get_snd]; rfl, rfl, rfl, rfl, rfl,
    by rw [get_calendars_snd]; rfl, ?_, ?_, ?_⟩
  · show (create_calendar_event_go host title a b cal loc notes).snd.length = 1
    rw [create_go_snd host title a b cal loc notes da db ha hb]
    rfl
  · show (get_calendar_events_go host a b cal).snd.length = 1
    rw [events_go_snd host a b cal da db ha hb]
    rfl
  · intro hne
    rcases hgc : get_calendars host with ⟨cals, t1⟩
    have ht1 : t1 = [get_calendars_script] := by
      have h2 := get_calendars_snd host
      rw [hgc] at h2
      exact h2
    rw [hgc] at hne
    cases cals with
    | nil => exact absurd rfl hne
    | cons c rest =>
      constructor
      · rcases hgo : create_calendar_event_go host title a b c loc notes with ⟨r, t2⟩
        have ht2 := create_go_snd host title a b c loc notes da db ha hb
        rw [hgo] at ht2
        simp only at ht2
        unfold create_calendar_event
        simp [hgc, hgo, ht1, ht2]
      · rcases hgo : get_calendar_events_go host a b c with ⟨r, t2⟩
        have ht2 := events_go_snd host a b c da db ha hb
        rw [hgo] at ht2
        simp only at ht2
        unfold get_calendar_events
        simp [hgc, hgo, ht1, ht2]

set_option maxRecDepth 8000 in
/-- C2 (witness): the amended count at a concrete host and inputs. -/
theorem c2_one_process_per_call_amended_witness :
    (done calListHost "Buy milk").snd.length = 1 ∧
    (create_calendar_event calListHost "M" "2024-01-01T10:00:00"
        "2024-01-01T11:00:00" (some "Work") "" "").snd.length = 1 ∧
    (create_calendar_event calListHost "M" "2024-01-01T10:00:00"
        "2024-01-01T11:00:00" none "" "").snd.length = 2 := by
  have h := c2_one_process_per_call_amended calListHost "Buy milk" "o" "n" "b" "M"
    "2024-01-01T10:00:00" "2024-01-01T11:00:00" "Work" "" ""
    ⟨2024, 1, 1, 10, 0, 0⟩ ⟨2024, 1, 1, 11, 0, 0⟩ (by decide) (by decide)
  exact ⟨h.2.2.1, h.2.2.2.2.2.2.2.1, (h.2.2.2.2.2.2.2.2.2 (by decide)).1⟩

set_option maxRecDepth 8000 in
/-- C3 (counterexample): on a host failure the RPC responses are the
generic failure values and do not change when the captured stderr does, so
they cannot carry the raw diagnostic text; the diagnostic goes to the
server's own stderr log instead. -/
theorem c3_counterexample_diagnostic_not_in_response :
    get_reminder (failHost "boom") "Milk" = ⟨none⟩ ∧
    complete_reminder (failHost "boom") "Milk" = ⟨false⟩ ∧
    get_reminder (failHost "a different diagnostic") "Milk" =
      get_reminder (failHost "boom") "Milk" ∧
    run_applescript_err_log (failHost "boom") (get_script "Milk") =
      ["Error executing AppleScript: boom"] := by
  refine ⟨by decide, by decide, by decide, by decide⟩

/-- C3 (amended): when the spawned process exits non-zero,
`run_applescript` returns `None` and prints the raw diagnostic (the
captured stderr) to the server's stderr log; every operation's RPC
response carries its generic failure value — `{result: null}` for
`get_reminder`, `{result: false}` for `complete_reminder`,
`delete_reminder`, `update_reminder` and `add_reminder`,
`{reminders: []}` for `list_reminders`, `[]` for `get_calendars` and
`get_calendar_events`, `false` for `create_calendar_event` — without the
diagnostic text, and no unhandled fault aborts the response. -/
theorem c3_nonzero_exit_generic_failure (host : Host)
    (hfail : ∀ s, (host s).exitCode ≠ 0) :
    (∀ s, run_applescript host s = none ∧
      run_applescript_err_log host s =
        [s!"Error executing AppleScript: {(host s).stderr}"]) ∧
    (∀ name, get_reminder host name = ⟨none⟩) ∧
    (∀ name, complete_reminder host name = ⟨false⟩) ∧
    (∀ name, delete_reminder host name = ⟨false⟩) ∧
    (∀ old_name new_name, update_reminder host old_name new_name = ⟨false⟩) ∧
    (∀ name body, add_reminder host name body = ⟨false⟩) ∧
    list_reminders_mcp host = ⟨[]⟩ ∧
    (get_calendars host).fst = [] ∧
    (∀ title a b cal loc notes,
      (create_calendar_event host title a b cal loc notes).fst = false) ∧
    (∀ a b cal, (get_calendar_events host a b cal).fst = []) := by
  have hgc : get_calendars host = ([], [get_calendars_script]) := by
    unfold get_calendars
    simp [run_applescript_of_exit_nonzero host get_calendars_script (hfail get_calendars_script)]
  refine ⟨?_, ?_, ?_, ?_, ?_, ?_, ?_, ?_, ?_, ?_⟩
  · intro s
    exact ⟨run_applescript_of_exit_nonzero _ _ (hfail s),
      by simp [run_applescript_err_log, hfail s]⟩
  · intro name
    simp [get_reminder, get, run_applescript_of_exit_nonzero _ _ (hfail _)]
  · intro name
    simp [complete_reminder, done, beq_token_false_of_fail host _ "completed" (hfail _)]
  · intro name
    simp [delete_reminder, delete, beq_token_false_of_fail host _ "deleted" (hfail _)]
  · intro old_name new_name
    simp [update_reminder, update, beq_token_false_of_fail host _ "updated" (hfail _)]
  · intro name body
    simp [add_reminder, add, beq_token_false_of_fail host _ "added" (hfail _)]
  · simp [list_reminders_mcp, list_reminders, run_applescript_of_exit_nonzero _ _ (hfail _)]
  · rw [hgc]
  · intro title a b cal loc notes
    have hgo : ∀ c, (create_calendar_event_go host title a b c loc notes).fst = false := by
      intro c
      cases ha : fromisoformat a with
      | none => rw [create_go_invalid host title a b c loc notes (Or.inl ha)]
      | some da =>
        cases hb : fromisoformat b with
        | none => rw [create_go_invalid host title a b c loc notes (Or.inr hb)]
        | some db =>
          unfold create_calendar_event_go
          rw [ha, hb]
          simp [run_applescript_of_exit_nonzero _ _ (hfail _)]
    cases cal with
    | none =>
      unfold create_calendar_event
      simp [hgc]
    | some c => exact hgo c
  · intro a b cal
    have hgo : ∀ c, (get_calendar_events_go host a b c).fst = [] := by
      intro c
      cases ha : fromisoformat a with
      | none => rw [events_go_invalid host a b c (Or.inl ha)]
      | some da =>
        cases hb : fromisoformat b with
        | none => rw [events_go_invalid host a b c (Or.inr hb)]
        | some db =>
          unfold get_calendar_events_go
          rw [ha, hb]
          simp [run_applescript_of_exit_nonzero _ _ (hfail _)]
    cases cal with
    | none =>
      unfold get_calendar_events
      simp [hgc]
    | some c => exact hgo c

/-- C3 (witness): the amended behaviour of every operation at a concrete
failing host. -/
theorem c3_nonzero_exit_generic_failure_witness :
    run_applescript (failHost "boom") (get_script "Milk") = none ∧
    run_applescript_err_log (failHost "boom") (get_script "Milk") =
      ["Error executing AppleScript: boom"] ∧
    get_reminder (failHost "boom") "Milk" = ⟨none⟩ ∧
    complete_reminder (failHost "boom") "Milk" = ⟨false⟩ ∧
    delete_reminder (failHost "boom") "Milk" = ⟨false⟩ ∧
    update_reminder (failHost "boom") "Milk" "Oat milk" = ⟨false⟩ ∧
    add_reminder (failHost "boom") "Milk" "2 percent" = ⟨false⟩ ∧
    list_reminders_mcp (failHost "boom") = ⟨[]⟩ ∧
    (get_calendars (failHost "boom")).fst = [] ∧
    (create_calendar_event (failHost "boom") "M" "2024-01-01T10:00:00"
      "2024-01-01T11:00:00" (some "Work") "" "").fst = false ∧
    (get_calendar_events (failHost "boom") "2024-01-01" "2024-01-02" none).fst = [] := by
  have h := c3_nonzero_exit_generic_failure (failHost "boom")
    (by intro s; simp [failHost])
  exact ⟨(h.1 (get_script "Milk")).1, (h.1 (get_script "Milk")).2,
    h.2.1 "Milk", h.2.2.1 "Milk", h.2.2.2.1 "Milk",
    h.2.2.2.2.1 "Milk" "Oat milk", h.2.2.2.2.2.1 "Milk" "2 percent",
    h.2.2.2.2.2.2.1, h.2.2.2.2.2.2.2.1,
    h.2.2.2.2.2.2.2.2.1 "M" "2024-01-01T10:00:00" "2024-01-01T11:00:00"
      (some "Work") "" "",
    h.2.2.2.2.2.2.2.2.2 "2024-01-01" "2024-01-02" none⟩

/-- C4: when the host replies with the `"not found"` sentinel (exit 0),
`get_reminder` responds `{result: null}` and `complete_reminder`,
`delete_reminder`, `update_reminder` respond `{result: false}`; the
responses are total values, so no fault is raised. -/
theorem c4_not_found_sentinel (host : Host) (name old_name new_name : String)
    (hg0 : (host (get_script name)).exitCode = 0)
    (hg : pyStrip (host (get_script name)).stdout = "not found")
    (hc0 : (host (done_script name)).exitCode = 0)
    (hc : pyStrip (host (done_script name)).stdout = "not found")
    (hd0 : (host (delete_script name)).exitCode = 0)
    (hd : pyStrip (host (delete_script name)).stdout = "not found")
    (hu0 : (host (update_script old_name new_name)).exitCode = 0)
    (hu : pyStrip (host (update_script old_name new_name)).stdout = "not found") :
    get_reminder host name = ⟨none⟩ ∧
    complete_reminder host name = ⟨false⟩ ∧
    delete_reminder host name = ⟨false⟩ ∧
    update_reminder host old_name new_name = ⟨false⟩ := by
  have h1 := run_applescript_of_exit_zero host (get_script name) hg0
  rw [hg] at h1
  refine ⟨?_, ?_, ?_, ?_⟩
  · simp [get_reminder, get, h1]
  · simp [complete_reminder, done,
      beq_token_false_of_ne host _ "completed" (by rw [hc]; decide)]
  · simp [delete_reminder, delete,
      beq_token_false_of_ne host _ "deleted" (by rw [hd]; decide)]
  · simp [update_reminder, update,
      beq_token_false_of_ne host _ "updated" (by rw [hu]; decide)]

/-- C4 (witness): the sentinel behaviour at a concrete stub host that
always replies `not found`. -/
theorem c4_not_found_sentinel_witness :
    get_reminder (constHost "not found") "X" = ⟨none⟩ ∧
    complete_reminder (constHost "not found") "X" = ⟨false⟩ ∧
    delete_reminder (constHost "not found") "X" = ⟨false⟩ ∧
    update_reminder (constHost "not found") "X" "Y" = ⟨false⟩ :=
  c4_not_found_sentinel (constHost "not found") "X" "X" "Y"
    (by decide) (by decide) (by decide) (by decide)
    (by decide) (by decide) (by decide) (by decide)

/-- C5: each boolean-outcome operation responds `{result: true}` exactly
when the host run succeeded (exit 0) and its stripped output equals that
operation's sentinel token — `completed`, `deleted`, `updated`, `added`
respectively — and `{result: false}` for any other output, absent output,
or a failed invocation. -/
theorem c5_boolean_sentinel_iff (host : Host) (name old_name new_name body : String) :
    ((complete_reminder host name).result = true ↔
      ((host (done_script name)).exitCode = 0 ∧
        pyStrip (host (done_script name)).stdout = "completed")) ∧
    ((delete_reminder host name).result = true ↔
      ((host (delete_script name)).exitCode = 0 ∧
        pyStrip (host (delete_script name)).stdout = "deleted")) ∧
    ((update_reminder host old_name new_name).result = true ↔
      ((host (update_script old_name new_name)).exitCode = 0 ∧
        pyStrip (host (update_script old_name new_name)).stdout = "updated")) ∧
    ((add_reminder host name body).result = true ↔
      ((host (add_script name body)).exitCode = 0 ∧
        pyStrip (host (add_script name body)).stdout = "added")) :=
  ⟨run_applescript_beq_token host (done_script name) "completed",
   run_applescript_beq_token host (delete_script name) "deleted",
   run_applescript_beq_token host (update_script old_name new_name) "updated",
   run_applescript_beq_token host (add_script name body) "added"⟩

/-- C6: list parsing in `list_reminders` — an empty host output yields
`{reminders: []}` (not `[""]`), and the output `A, B, C` yields
`{reminders: ["A", "B", "C"]}`. -/
theorem c6_list_parsing (host : Host)
    (h0 : (host list_reminders_script).exitCode = 0) :
    (pyStrip (host list_reminders_script).stdout = "" →
      list_reminders_mcp host = ⟨[]⟩) ∧
    (pyStrip (host list_reminders_script).stdout = "A, B, C" →
      list_reminders_mcp host = ⟨["A", "B", "C"]⟩) := by
  have h1 := run_applescript_of_exit_zero host list_reminders_script h0
  constructor
  · intro h
    rw [h] at h1
    simp only [list_reminders_mcp, list_reminders, h1]
    decide
  · intro h
    rw [h] at h1
    simp only [list_reminders_mcp, list_reminders, h1]
    decide

/-- C6 (witness): the parses at concrete stub hosts. -/
theorem c6_list_parsing_witness :
    list_reminders_mcp (constHost "") = ⟨[]⟩ ∧
    list_reminders_mcp (constHost "A, B, C") = ⟨["A", "B", "C"]⟩ :=
  ⟨(c6_list_parsing (constHost "") (by decide)).1 (by decide),
   (c6_list_parsing (constHost "A, B, C") (by decide)).2 (by decide)⟩

/-- C7: record parsing in `get` — for a non-empty output other than the
`not found` sentinel with fewer comma-separated fields than the three
expected, the missing fields get their defaults: one field parses to
`{name, body := "", completed := false}` and two fields to
`{name, body, completed := false}`; parsing is a total function, so it
never throws. -/
theorem c7_record_missing_fields_default (host : Host) (name : String)
    (h0 : (host (get_script name)).exitCode = 0)
    (hne : pyStrip (host (get_script name)).stdout ≠ "")
    (hnf : pyStrip (host (get_script name)).stdout ≠ "not found") :
    (∀ a : String, pySplit (pyStrip (host (get_script name)).stdout) "," = [a] →
      get_reminder host name = ⟨some ⟨a, "", false⟩⟩) ∧
    (∀ a b : String, pySplit (pyStrip (host (get_script name)).stdout) "," = [a, b] →
      get_reminder host name = ⟨some ⟨a, b, false⟩⟩) := by
  have h1 := run_applescript_of_exit_zero host (get_script name) h0
  have hcond : (pyStrip (host (get_script name)).stdout != "" &&
      pyStrip (host (get_script name)).stdout != "not found") = true := by
    simp [bne_iff_ne, hne, hnf]
  constructor
  · intro a ha
    simp [get_reminder, get, h1, hcond, parse_reminder, pySplitMax2, ha]
  · intro a b hab
    simp [get_reminder, get, h1, hcond, parse_reminder, pySplitMax2, hab]

/-- C7 (witness): one-field and two-field host outputs at stub hosts. -/
theorem c7_record_missing_fields_default_witness :
    get_reminder (constHost "OnlyName") "X" = ⟨some ⟨"OnlyName", "", false⟩⟩ ∧
    get_reminder (constHost "Milk,low fat") "X" = ⟨some ⟨"Milk", "low fat", false⟩⟩ :=
  ⟨(c7_record_missing_fields_default (constHost "OnlyName") "X"
      (by decide) (by decide) (by decide)).1 "OnlyName" (by decide),
   (c7_record_missing_fields_default (constHost "Milk,low fat") "X"
      (by decide) (by decide) (by decide)).2 "Milk" "low fat" (by decide)⟩

set_option maxRecDepth 8000 in
/-- C8 (counterexample): with `calendar_name = None` and a malformed start
date, `create_calendar_event` and `get_calendar_events` still dispatch an
automation script (the calendar-discovery script) to the host before the
date check, so the malformed date is not detected before all dispatch; the
calls do return their failure values. -/
theorem c8_counterexample_discovery_before_validation :
    fromisoformat "not-a-date" = none ∧
    (create_calendar_event calListHost "T" "not-a-date" "2024-01-01" none "" "").snd =
      [get_calendars_script] ∧
    (create_calendar_event calListHost "T" "not-a-date" "2024-01-01" none "" "").fst = false ∧
    (get_calendar_events calListHost "not-a-date" "2024-01-01" none).snd =
      [get_calendars_script] := by
  decide

/-- C8 (amended): a malformed date is detected locally before the
operation's own event script is rendered or dispatched: with an explicit
calendar name nothing is dispatched and the failure value (`False` for
`create_calendar_event`, `[]` for `get_calendar_events`) is returned; with
`calendar_name = None` the calendar-discovery script may be dispatched
first, but the event script is never dispatched and the failure value is
still returned. -/
theorem c8_validation_before_event_dispatch (host : Host)
    (title a b cal loc notes : String)
    (h : fromisoformat a = none ∨ fromisoformat b = none) :
    create_calendar_event host title a b (some cal) loc notes = (false, []) ∧
    get_calendar_events host a b (some cal) = ([], []) ∧
    (create_calendar_event host title a b none loc notes).fst = false ∧
    (get_calendar_events host a b none).fst = [] ∧
    (∀ s, s ∈ (create_calendar_event host title a b none loc notes).snd →
      s = get_calendars_script) ∧
    (∀ s, s ∈ (get_calendar_events host a b none).snd → s = get_calendars_script) := by
  have hcreate : create_calendar_event host title a b none loc notes =
      (false, [get_calendars_script]) := by
    rcases hgc : get_calendars host with ⟨cals, t1⟩
    have ht1 := get_calendars_snd host
    rw [hgc] at ht1
    simp only at ht1
    unfold create_calendar_event
    cases cals with
    | nil => simp [hgc, ht1]
    | cons c rest => simp [hgc, create_go_invalid host title a b c loc notes h, ht1]
  have hevents : get_calendar_events host a b none = ([], [get_calendars_script]) := by
    rcases hgc : get_calendars host with ⟨cals, t1⟩
    have ht1 := get_calendars_snd host
    rw [hgc] at ht1
    simp only at ht1
    unfold get_calendar_events
    cases cals with
    | nil => simp [hgc, ht1]
    | cons c rest => simp [hgc, events_go_invalid host a b c h, ht1]
  refine ⟨create_go_invalid host title a b cal loc notes h,
    events_go_invalid host a b cal h, ?_, ?_, ?_, ?_⟩
  · rw [hcreate]
  · rw [hevents]
  · rw [hcreate]
    intro s hs
    simpa using hs
  · rw [hevents]
    intro s hs
    simpa using hs

set_option maxRecDepth 8000 in
/-- C8 (witness): the amended behaviour at a concrete host and a concrete
malformed date. -/
theorem c8_validation_before_event_dispatch_witness :
    create_calendar_event calListHost "T" "not-a-date" "2024-01-01" (some "Work") "" "" =
      (false, []) ∧
    get_calendar_events calListHost "not-a-date" "2024-01-01" (some "Work") = ([], []) ∧
    (create_calendar_event calListHost "T" "not-a-date" "2024-01-01" none "" "").fst = false ∧
    (get_calendar_events calListHost "not-a-date" "2024-01-01" none).fst = [] := by
  have h := c8_validation_before_event_dispatch calListHost "T" "not-a-date" "2024-01-01"
    "Work" "" "" (Or.inl (by decide))
  exact ⟨h.1, h.2.1, h.2.2.1, h.2.2.2.1⟩

theorem hostDoneStep_of_mem (name : String) (s : List HostReminder)
    (h : s.any (fun r => r.name == name) = true) :
    (hostDoneStep name s).fst = "completed" ∧
    ((hostDoneStep name s).snd.any (fun r => r.name == name)) = true := by
  induction s with
  | nil => simp at h
  | cons r rs ih =>
    by_cases hr : (r.name == name) = true
    · simp [hostDoneStep, hr]
    · have h2 : rs.any (fun x => x.name == name) = true := by
        simp only [List.any_cons, hr, Bool.false_or] at h
        exact h
      rcases hst : hostDoneStep name rs with ⟨out, rs2⟩
      have ih2 := ih h2
      rw [hst] at ih2
      simp only at ih2
      simp [hostDoneStep, hr, hst, ih2.1, ih2.2]

/-- C9: when some reminder with the given name exists — in particular one
that is already completed — `done` run against the modelled host returns
`true`, and running it a second time on the resulting state returns `true`
again: completing an already-completed reminder is not an error and the
operation is idempotent in its result. -/
theorem c9_complete_idempotent (s : List HostReminder) (name : String)
    (h : s.any (fun r => r.name == name) = true) :
    (done_on_state s name).fst = true ∧
    (done_on_state (done_on_state s name).snd name).fst = true := by
  have key : ∀ (st : List HostReminder), st.any (fun r => r.name == name) = true →
      (done_on_state st name).fst = true := by
    intro st hst
    rcases h1 : hostDoneStep name st with ⟨out, st2⟩
    have l1 := hostDoneStep_of_mem name st hst
    rw [h1] at l1
    simp only at l1
    simp [done_on_state, h1, done, run_applescript, l1.1]
    decide
  have hsnd : (done_on_state s name).snd.any (fun r => r.name == name) = true := by
    rcases h1 : hostDoneStep name s with ⟨out, st2⟩
    have l1 := hostDoneStep_of_mem name s h
    rw [h1] at l1
    simp only at l1
    simp [done_on_state, h1, l1.2]
  exact ⟨key s h, key _ hsnd⟩

/-- C9 (witness): double completion of an already-completed reminder. -/
theorem c9_complete_idempotent_witness :
    (done_on_state [⟨"Buy milk", "", true⟩] "Buy milk").fst = true ∧
    (done_on_state (done_on_state [⟨"Buy milk", "", true⟩] "Buy milk").snd
      "Buy milk").fst = true :=
  c9_complete_idempotent [⟨"Buy milk", "", true⟩] "Buy milk" (by decide)

/-- C10: the time-of-day of valid date arguments is ignored by
`get_calendar_events`: two calls whose dates parse to the same calendar
days behave identically (same dispatched script and same result); the
dispatched script is the one whose query window is built from the start
day at 00:00:00 and the end day at 23:59:59; and the script's selection
clause keeps exactly the events whose start date lies in that widened
window. -/
theorem c10_window_widened (host : Host) (cal a1 b1 a2 b2 : String)
    (d1 e1 d2 e2 : PyDateTime)
    (ha1 : fromisoformat a1 = some d1) (hb1 : fromisoformat b1 = some e1)
    (ha2 : fromisoformat a2 = some d2) (hb2 : fromisoformat b2 = some e2)
    (hy : d2.year = d1.year) (hm : d2.month = d1.month) (hd : d2.day = d1.day)
    (hy2 : e2.year = e1.year) (hm2 : e2.month = e1.month) (hd2 : e2.day = e1.day) :
    get_calendar_events host a1 b1 (some cal) = get_calendar_events host a2 b2 (some cal) ∧
    (get_calendar_events host a1 b1 (some cal)).snd =
      [get_calendar_events_script cal d1.year d1.month d1.day e1.year e1.month e1.day] ∧
    (∀ (events : List HostCalEvent) (ev : HostCalEvent),
      ev ∈ hostSelectEvents d1.year d1.month d1.day e1.year e1.month e1.day events ↔
        (ev ∈ events ∧
          dtLe ⟨d1.year, d1.month, d1.day, 0, 0, 0⟩ ev.startDate = true ∧
          dtLe ev.startDate ⟨e1.year, e1.month, e1.day, 23, 59, 59⟩ = true)) := by
  refine ⟨?_, ?_, ?_⟩
  · show get_calendar_events_go host a1 b1 cal = get_calendar_events_go host a2 b2 cal
    unfold get_calendar_events_go
    rw [ha1, hb1, ha2, hb2]
    simp [hy, hm, hd, hy2, hm2, hd2]
  · show (get_calendar_events_go host a1 b1 cal).snd = _
    rw [events_go_snd host a1 b1 cal d1 e1 ha1 hb1]
  · intro events ev
    simp [hostSelectEvents, List.mem_filter, and_assoc]

set_option maxRecDepth 8000 in
/-- C10 (witness): two date pairs on the same calendar days with different
times of day give identical calls, and the dispatched script is built from
the day components only. -/
theorem c10_window_widened_witness :
    get_calendar_events (constHost "") "2024-03-05T09:15:00" "2024-03-06T10:00:00"
        (some "Work") =
      get_calendar_events (constHost "") "2024-03-05" "2024-03-06T23:59:59" (some "Work") ∧
    (get_calendar_events (constHost "") "2024-03-05T09:15:00" "2024-03-06T10:00:00"
        (some "Work")).snd =
      [get_calendar_events_script "Work" 2024 3 5 2024 3 6] := by
  have h := c10_window_widened (constHost "") "Work"
    "2024-03-05T09:15:00" "2024-03-06T10:00:00" "2024-03-05" "2024-03-06T23:59:59"
    ⟨2024, 3, 5, 9, 15, 0⟩ ⟨2024, 3, 6, 10, 0, 0⟩ ⟨2024, 3, 5, 0, 0, 0⟩
    ⟨2024, 3, 6, 23, 59, 59⟩
    (by decide) (by decide) (by decide) (by decide) rfl rfl rfl rfl rfl rfl
  exact ⟨h.1, h.2.1⟩

end ReminderMcp
